import Mathlib

/-!
Shallow embedding of the `forward` plugin (files `health.go` and `lookup.go`):
a forwarding DNS proxy with per-upstream in-band health checking, a randomized
per-request trial order over the configured upstreams, and a synthetic-query
helper.  Network effects (the DNS exchange of a health probe, dialing, writing
and reading a connection) are modelled by oracle arguments giving the outcome
of each external operation; the functions below mirror the Go control flow on
those outcomes.
-/

namespace Forward

/-- `2^32`: the failure counter is a Go `uint32` and wraps on increment. -/
def U32 : Nat := 2 ^ 32

/-- Error classification of `dns.Client.Exchange` inside a health probe:
either the reply was truncated (`dns.ErrTruncated`) or some other error. -/
inductive ExchErr where
  | truncated
  | other (msg : String)
  deriving DecidableEq, Repr

/-- Per-upstream state (`host` in `health.go`): address, the atomic failure
counter `fails` (a `uint32`), the `checking` debounce flag, and whether a TLS
configuration is attached (`tlsConfig != nil`). -/
structure Host where
  addr : String
  fails : Nat
  checking : Bool
  tlsConfig : Bool
  deriving DecidableEq, Repr

/-- `(h *host) send()`: performs the ". IN NS" probe exchange and maps
`dns.ErrTruncated` to success; every other exchange error is returned as-is.
The exchange outcome itself is the oracle argument. -/
def send (exchangeErr : Option ExchErr) : Option ExchErr :=
  match exchangeErr with
  | some .truncated => none
  | e => e

/-- Observable result of one `Check()` call: the updated host state, whether a
network exchange was performed, and whether `HealthcheckFailureCount` was
incremented. -/
structure CheckResult where
  host : Host
  exchanged : Bool
  failureSignal : Bool
  deriving DecidableEq, Repr

/-- `(h *host) Check()`: if a probe is already in flight (`h.checking`), return
immediately; otherwise set the flag, run `send`, on error increment `fails`
(wrapping `uint32` add) and signal a healthcheck failure, on success store 0
into `fails`; clear the flag before returning on both paths. -/
def check (h : Host) (exchangeErr : Option ExchErr) : CheckResult :=
  if h.checking then
    { host := h, exchanged := false, failureSignal := false }
  else
    let h1 : Host := { h with checking := true }
    match send exchangeErr with
    | some _ =>
        { host := { h1 with fails := (h1.fails + 1) % U32, checking := false },
          exchanged := true, failureSignal := true }
    | none =>
        { host := { h1 with fails := 0, checking := false },
          exchanged := true, failureSignal := false }

/-- `(h *host) down(maxfails)`: `false` when `maxfails == 0`, otherwise the
atomic load of `fails` compared strictly against `maxfails`. -/
def down (h : Host) (maxfails : Nat) : Bool :=
  if maxfails = 0 then false else decide (h.fails > maxfails)

end Forward

namespace Forward

/-- A DNS message as the core reads and writes it: question name (as a list of
labels, least significant label last, so `a.example.org.` is
`["a", "example", "org"]`), question type, response code, advertised EDNS0
UDP payload size, and the DNSSEC-OK flag. -/
structure Msg where
  qname : List String
  qtype : Nat
  rcode : Nat
  udpSize : Nat
  doFlag : Bool
  deriving DecidableEq, Repr

/-- `new(dns.Msg)`: a fresh message; without an OPT record the implicit
payload size is 512 and the DO flag is clear. -/
def newMsg : Msg :=
  { qname := [], qtype := 0, rcode := 0, udpSize := 512, doFlag := false }

/-- `msg.SetQuestion(name, typ)`: installs the question section. -/
def setQuestion (m : Msg) (name : List String) (typ : Nat) : Msg :=
  { m with qname := name, qtype := typ }

/-- One configured upstream (`proxy`): its host state.  Dialing, transport and
the connection pool are abstracted into per-trial outcome oracles. -/
structure Proxy where
  host : Host
  deriving DecidableEq, Repr

instance : Inhabited Proxy := ⟨⟨⟨"", 0, false, false⟩⟩⟩

/-- `(p *proxy) Down(maxfails)` forwards to the host's `down`. -/
def Proxy.Down (p : Proxy) (maxfails : Nat) : Bool :=
  down p.host maxfails

/-- The `Forward` plugin instance: upstreams, origin zone `from`, excluded
subzones `ignored`, `maxfails`, and the force-TCP flag. -/
structure ForwardConf where
  proxies : List Proxy
  fromZone : List String
  ignored : List (List String)
  maxfails : Nat
  forceTCP : Bool
  deriving DecidableEq, Repr

/-- Modelled from the spec: CoreDNS `plugin.Name(zone).Matches(name)` is not
under `src/`; per the spec the query name falls within the zone on an exact
or suffix match under the zone's matching rule, i.e. the zone's labels are a
suffix of the name's labels. -/
def pluginNameMatches (zone name : List String) : Bool :=
  zone.isSuffixOf name

/-- `(f Forward) isAllowedDomain(name)`: a name equal to the zone is always
allowed; otherwise any `ignored` subzone that matches the name rejects it. -/
def isAllowedDomain (f : ForwardConf) (name : List String) : Bool :=
  if name = f.fromZone then true
  else !(f.ignored.any fun ignore => pluginNameMatches ignore name)

/-- `(f Forward) match(state)`: the name must match the origin zone and pass
`isAllowedDomain`. -/
def matchState (f : ForwardConf) (name : List String) : Bool :=
  pluginNameMatches f.fromZone name && isAllowedDomain f name

/-- `(f Forward) list()`: the randomized per-request trial order.  The random
draws are oracle arguments: `coinEven` is `rand.Int()%2 == 0` (used only when
there are exactly two proxies) and `perm` is the output of
`rand.Perm(len(f.proxies))` (used only with three or more). -/
def list (f : ForwardConf) (coinEven : Bool) (perm : List Nat) : List Proxy :=
  if f.proxies.length = 1 then f.proxies
  else if f.proxies.length = 2 then
    if coinEven then [f.proxies.getD 1 default, f.proxies.getD 0 default]
    else f.proxies
  else
    perm.map fun p => f.proxies.getD p default

/-- Outcome of one `ServeDNS` trial on an up proxy, in the order the code can
fail: `proxy.Dial` errors, `conn.WriteMsg` errors, `conn.ReadMsg` errors, or
the read succeeds with reply `ret`. -/
inductive TrialOutcome where
  | dialErr
  | writeErr
  | readErr
  | reply (ret : Msg)
  deriving DecidableEq, Repr

/-- Whether the trial outcome is one of the three per-trial failures. -/
def TrialOutcome.isErr : TrialOutcome → Bool
  | .dialErr => true
  | .writeErr => true
  | .readErr => true
  | .reply _ => false

/-- What became of a trial's connection: `closed` is `conn.Close()` (discarded,
not given back to the pool), `yielded` is `proxy.Yield(conn)`. -/
inductive ConnEvent where
  | closed (addr : String)
  | yielded (addr : String)
  deriving DecidableEq, Repr

/-- Observable result of `ServeDNS`: the returned plugin code and error, the
messages written to the client via `w.WriteMsg`, the connection events, the
success metrics recorded (upstream address paired with the reply's rcode),
and the upstream states after the request. -/
structure ServeResult where
  rcode : Nat
  err : Option String
  clientWrites : List Msg
  events : List ConnEvent
  metrics : List (String × Nat)
  proxies : List Proxy
  deriving DecidableEq, Repr

/-- `dns.RcodeServerFailure`. -/
def RcodeServerFailure : Nat := 2

/-- `errNoHealthy = errors.New("no healthy proxies")`. -/
def errNoHealthy : String := "no healthy proxies"

/-- The `ServeDNS` trial loop over the randomized proxy order.  `oracle j`
gives trial `j`'s dial/write/read outcome; `i` is the index of the current
trial.  A down proxy is skipped; a dial error moves on; a write or read error
closes the connection and moves on; a successful read writes the reply to the
client, yields the connection, records metrics, and returns `(0, nil)`
without trying further proxies.  An exhausted list returns
`(dns.RcodeServerFailure, errNoHealthy)`. -/
def serveLoop (maxfails : Nat) (oracle : Nat → TrialOutcome) :
    Nat → List Proxy → ServeResult
  | _, [] =>
      { rcode := RcodeServerFailure, err := some errNoHealthy,
        clientWrites := [], events := [], metrics := [], proxies := [] }
  | i, p :: rest =>
      if p.Down maxfails then
        let r := serveLoop maxfails oracle (i + 1) rest
        { r with proxies := p :: r.proxies }
      else
        match oracle i with
        | .dialErr =>
            let r := serveLoop maxfails oracle (i + 1) rest
            { r with proxies := p :: r.proxies }
        | .writeErr =>
            let r := serveLoop maxfails oracle (i + 1) rest
            { r with events := .closed p.host.addr :: r.events,
                     proxies := p :: r.proxies }
        | .readErr =>
            let r := serveLoop maxfails oracle (i + 1) rest
            { r with events := .closed p.host.addr :: r.events,
                     proxies := p :: r.proxies }
        | .reply ret =>
            { rcode := 0, err := none, clientWrites := [ret],
              events := [.yielded p.host.addr],
              metrics := [(p.host.addr, ret.rcode)],
              proxies := p :: rest }

/-- `(f Forward) ServeDNS(ctx, w, r)`: on zone mismatch delegate to the next
handler (`plugin.NextOrFailure`), whose result is the oracle argument
`nextResult`, returned unchanged with no writes, events or metrics of our
own; otherwise run the trial loop over `f.list()`. -/
def serveDNS (f : ForwardConf) (name : List String)
    (nextResult : Nat × Option String) (coinEven : Bool) (perm : List Nat)
    (oracle : Nat → TrialOutcome) : ServeResult :=
  if !matchState f name then
    { rcode := nextResult.1, err := nextResult.2, clientWrites := [],
      events := [], metrics := [], proxies := f.proxies }
  else
    serveLoop f.maxfails oracle 0 (list f coinEven perm)

/-- Modelled from the spec: the surrounding server (not under `src/`) turns an
orchestrator return of a server-failure code into a server-failure response
written to the client when the orchestrator wrote no reply itself. -/
def clientResponseRcode (r : ServeResult) : Option Nat :=
  match r.clientWrites with
  | m :: _ => some m.rcode
  | [] => some r.rcode

/-- Outcome of `proxy.connect` in the `Forward` helper's trial loop: an error,
or a reply message. -/
inductive ConnectResult where
  | connectErr
  | reply (ret : Msg)
  deriving DecidableEq, Repr

/-- Observable result of `Forward`/`Lookup`: the returned message and error,
and the upstream states afterwards. -/
structure ForwardResult where
  ret : Option Msg
  err : Option String
  proxies : List Proxy
  deriving DecidableEq, Repr

/-- The `Forward` helper's trial loop (`lookup.go`): skip down proxies, move
on after a `connect` error, return the first reply with a nil error.
`oracle j req` is trial `j`'s `connect` outcome for request `req`. -/
def forwardLoop (maxfails : Nat) (req : Msg)
    (oracle : Nat → Msg → ConnectResult) : Nat → List Proxy → ForwardResult
  | _, [] => { ret := none, err := some errNoHealthy, proxies := [] }
  | i, p :: rest =>
      if p.Down maxfails then
        let r := forwardLoop maxfails req oracle (i + 1) rest
        { r with proxies := p :: r.proxies }
      else
        match oracle i req with
        | .connectErr =>
            let r := forwardLoop maxfails req oracle (i + 1) rest
            { r with proxies := p :: r.proxies }
        | .reply ret =>
            { ret := some ret, err := none, proxies := p :: rest }

/-- `(f Forward) Forward(state)`: the trial loop over `f.list()` on an
already-built request, with no zone-match step. -/
def forward (f : ForwardConf) (req : Msg) (coinEven : Bool) (perm : List Nat)
    (oracle : Nat → Msg → ConnectResult) : ForwardResult :=
  forwardLoop f.maxfails req oracle 0 (list f coinEven perm)

/-- Modelled from the spec: `request.Request.SizeAndDo` (CoreDNS, not under
`src/`) copies the protocol-extension payload size and the DNSSEC-OK flag
from the original request onto the message. -/
def sizeAndDo (original m : Msg) : Msg :=
  { m with udpSize := original.udpSize, doFlag := original.doFlag }

/-- The synthetic query `Lookup` builds: a fresh message with the given
question, then `state.SizeAndDo(req)` applied from the original request. -/
def lookupQuery (st : Msg) (name : List String) (typ : Nat) : Msg :=
  sizeAndDo st (setQuestion newMsg name typ)

/-- `(f Forward) Lookup(state, name, typ)`: forge the synthetic query and
`Forward` it. -/
def lookup (f : ForwardConf) (st : Msg) (name : List String) (typ : Nat)
    (coinEven : Bool) (perm : List Nat)
    (oracle : Nat → Msg → ConnectResult) : ForwardResult :=
  forward f (lookupQuery st name typ) coinEven perm oracle

/-! Sample hosts, proxies and configurations used by concrete witnesses. -/

/-- A healthy upstream (failure counter 0). -/
def upA : Proxy := ⟨⟨"10.0.0.1:53", 0, false, false⟩⟩

/-- A second healthy upstream. -/
def upB : Proxy := ⟨⟨"10.0.0.2:53", 0, false, false⟩⟩

/-- An upstream whose failure counter (3) exceeds `maxfails = 2`. -/
def downC : Proxy := ⟨⟨"10.0.0.3:53", 3, false, false⟩⟩

/-- Two-upstream configuration: one down, one up, zone `org.`. -/
def cfg2 : ForwardConf :=
  { proxies := [downC, upB], fromZone := ["org"], ignored := [],
    maxfails := 2, forceTCP := false }

/-- Three-upstream configuration, zone `org.`, excluded subzone
`a.example.org.`. -/
def cfg3 : ForwardConf :=
  { proxies := [upA, upB, downC], fromZone := ["org"],
    ignored := [["a", "example", "org"]], maxfails := 2, forceTCP := false }

/-- An upstream reply carrying the server-failure rcode (2). -/
def servfailReply : Msg :=
  { qname := ["example", "org"], qtype := 1, rcode := 2,
    udpSize := 512, doFlag := false }

/-- C4: `down` (the spec's `IsDown`) returns `false` when `maxfails = 0`, and
otherwise returns `true` exactly when the failure counter strictly exceeds
`maxfails`; in particular a counter equal to `maxfails` counts as up. -/
theorem down_iff (h : Host) (m : Nat) :
    down h m = true ↔ m ≠ 0 ∧ h.fails > m := by
  unfold down
  by_cases hm : m = 0 <;> simp [hm]

/-- C5: with no probe in flight, a successful probe stores exactly 0 into the
failure counter and records no failure; a truncated exchange is classified
identically to a successful one; any other exchange error increments the
counter (wrapping `uint32` add) and emits the health-failure signal. -/
theorem check_counter (h : Host) (hnc : h.checking = false) :
    (check h none).host.fails = 0 ∧
    (check h none).failureSignal = false ∧
    check h (some .truncated) = check h none ∧
    (∀ e, (check h (some (.other e))).host.fails = (h.fails + 1) % U32 ∧
      (check h (some (.other e))).failureSignal = true) := by
  refine ⟨?_, ?_, ?_, fun e => ⟨?_, ?_⟩⟩ <;> simp [check, send, hnc]

/-- Witness for `check_counter` at a concrete host with `fails = 7`. -/
theorem check_counter_witness :
    (check ⟨"10.0.0.1:53", 7, false, false⟩ none).host.fails = 0 ∧
    (check ⟨"10.0.0.1:53", 7, false, false⟩ none).failureSignal = false ∧
    check ⟨"10.0.0.1:53", 7, false, false⟩ (some .truncated) =
      check ⟨"10.0.0.1:53", 7, false, false⟩ none ∧
    (∀ e, (check ⟨"10.0.0.1:53", 7, false, false⟩ (some (.other e))).host.fails =
        (7 + 1) % U32 ∧
      (check ⟨"10.0.0.1:53", 7, false, false⟩ (some (.other e))).failureSignal = true) :=
  check_counter ⟨"10.0.0.1:53", 7, false, false⟩ rfl

/-- C6: if the probe-in-flight flag is set, `Check` returns at once with no
exchange, no failure signal and the host state (counter included) unchanged;
if it is clear, an exchange is performed and the flag is clear again on return
for every exchange outcome, healthy or not. -/
theorem check_debounce (h : Host) (o : Option ExchErr) :
    (h.checking = true →
      check h o = { host := h, exchanged := false, failureSignal := false }) ∧
    (h.checking = false →
      (check h o).exchanged = true ∧ (check h o).host.checking = false) := by
  constructor
  · intro hc
    simp [check, hc]
  · intro hc
    cases o with
    | none => simp [check, send, hc]
    | some e => cases e <;> simp [check, send, hc]

/-- Witness for `check_debounce`: a host with the flag set is untouched, and a
host with the flag clear exchanges and ends with the flag clear. -/
theorem check_debounce_witness :
    check ⟨"u1:53", 4, true, false⟩ (some (.other "timeout")) =
      { host := ⟨"u1:53", 4, true, false⟩, exchanged := false,
        failureSignal := false } ∧
    ((check ⟨"u2:53", 4, false, false⟩ (some (.other "timeout"))).exchanged = true ∧
      (check ⟨"u2:53", 4, false, false⟩ (some (.other "timeout"))).host.checking = false) :=
  ⟨(check_debounce ⟨"u1:53", 4, true, false⟩ (some (.other "timeout"))).1 rfl,
   (check_debounce ⟨"u2:53", 4, false, false⟩ (some (.other "timeout"))).2 rfl⟩

/-- Helper: mapping `getD` over `range l.length` reassembles `l`. -/
theorem range_map_getD (l : List Proxy) :
    (List.range l.length).map (fun i => l.getD i default) = l := by
  induction l with
  | nil => rfl
  | cons x xs ih =>
      rw [List.length_cons, List.range_succ_eq_map, List.map_cons, List.map_map]
      simp only [Function.comp, List.getD_cons_zero, List.getD_cons_succ]
      exact congrArg (x :: ·) ih

/-- C2: whenever the oracle standing for `rand.Perm` is a permutation of
`range n` (which `rand.Perm` guarantees), the per-request trial order
`f.list()` is a permutation of the configured proxy list: every configured
upstream exactly once, no duplicates, no omissions, for any coin draw. -/
theorem list_is_perm (f : ForwardConf) (coinEven : Bool) (perm : List Nat)
    (hp : perm.Perm (List.range f.proxies.length)) :
    (list f coinEven perm).Perm f.proxies := by
  unfold list
  by_cases h1 : f.proxies.length = 1
  · rw [if_pos h1]
  · rw [if_neg h1]
    by_cases h2 : f.proxies.length = 2
    · rw [if_pos h2]
      obtain ⟨a, b, hab⟩ := List.length_eq_two.mp h2
      cases coinEven with
      | true => rw [if_pos rfl, hab]; exact List.Perm.swap a b []
      | false => rw [if_neg (by simp)]
    · rw [if_neg h2]
      have h3 := hp.map (fun p => f.proxies.getD p default)
      rwa [range_map_getD] at h3

/-- Witness for `list_is_perm`: three proxies with `rand.Perm` output
`[2, 0, 1]`. -/
theorem list_is_perm_witness :
    ([2, 0, 1] : List Nat).Perm (List.range cfg3.proxies.length) ∧
    (list cfg3 true [2, 0, 1]).Perm cfg3.proxies :=
  ⟨by decide, list_is_perm cfg3 true [2, 0, 1] (by decide)⟩

/-- Helper: when every proxy in the remaining trial list is down or its trial
outcome is an error, the loop returns the server-failure code, the
no-healthy-proxies error, and writes nothing to the client. -/
theorem serveLoop_exhausted_fields (maxfails : Nat) (oracle : Nat → TrialOutcome)
    (ps : List Proxy) : ∀ i : Nat,
    (∀ j (hj : j < ps.length),
      (ps.get ⟨j, hj⟩).Down maxfails = true ∨ (oracle (i + j)).isErr = true) →
    (serveLoop maxfails oracle i ps).rcode = RcodeServerFailure ∧
    (serveLoop maxfails oracle i ps).err = some errNoHealthy ∧
    (serveLoop maxfails oracle i ps).clientWrites = [] := by
  induction ps with
  | nil => intro i _; exact ⟨rfl, rfl, rfl⟩
  | cons p rest ih =>
      intro i h
      have h0 : p.Down maxfails = true ∨ (oracle i).isErr = true := by
        have := h 0 (Nat.succ_pos _)
        simpa using this
      have ihr := ih (i + 1) (by
        intro j hj
        have := h (j + 1) (Nat.succ_lt_succ hj)
        simpa [Nat.add_comm, Nat.add_assoc, Nat.add_left_comm] using this)
      by_cases hd : p.Down maxfails
      · simpa [serveLoop, hd] using ihr
      · rcases h0 with h0 | h0
        · exact absurd h0 hd
        · cases ho : oracle i with
          | dialErr => simpa [serveLoop, hd, ho] using ihr
          | writeErr => simpa [serveLoop, hd, ho] using ihr
          | readErr => simpa [serveLoop, hd, ho] using ihr
          | reply ret => rw [ho] at h0; exact absurd h0 (by simp [TrialOutcome.isErr])

/-- C1: on a zone-matching request, if every trial is skipped (proxy down) or
fails (dial, write or read error), `ServeDNS` returns the server-failure code
together with the `no healthy proxies` error, writes no reply of its own, and
the response the client sees is the server-failure indication. -/
theorem serveDNS_exhausted (f : ForwardConf) (name : List String)
    (nextResult : Nat × Option String) (coinEven : Bool) (perm : List Nat)
    (oracle : Nat → TrialOutcome)
    (hm : matchState f name = true)
    (h : ∀ j (hj : j < (list f coinEven perm).length),
      ((list f coinEven perm).get ⟨j, hj⟩).Down f.maxfails = true ∨
        (oracle j).isErr = true) :
    (serveDNS f name nextResult coinEven perm oracle).rcode = RcodeServerFailure ∧
    (serveDNS f name nextResult coinEven perm oracle).err = some errNoHealthy ∧
    (serveDNS f name nextResult coinEven perm oracle).clientWrites = [] ∧
    clientResponseRcode (serveDNS f name nextResult coinEven perm oracle) =
      some RcodeServerFailure := by
  have hfields := serveLoop_exhausted_fields f.maxfails oracle
    (list f coinEven perm) 0 (by intro j hj; simpa using h j hj)
  have hds : serveDNS f name nextResult coinEven perm oracle =
      serveLoop f.maxfails oracle 0 (list f coinEven perm) := by
    simp [serveDNS, hm]
  refine ⟨?_, ?_, ?_, ?_⟩ <;> rw [hds]
  · exact hfields.1
  · exact hfields.2.1
  · exact hfields.2.2
  · simp [clientResponseRcode, hfields.2.2, hfields.1]

/-- Witness for `serveDNS_exhausted`: zone `org.`, query `example.org.`, one
proxy down and the other failing to dial. -/
theorem serveDNS_exhausted_witness :
    (serveDNS cfg2 ["example", "org"] (0, none) false [0, 1]
      (fun _ => TrialOutcome.dialErr)).rcode = RcodeServerFailure ∧
    (serveDNS cfg2 ["example", "org"] (0, none) false [0, 1]
      (fun _ => TrialOutcome.dialErr)).err = some errNoHealthy ∧
    (serveDNS cfg2 ["example", "org"] (0, none) false [0, 1]
      (fun _ => TrialOutcome.dialErr)).clientWrites = [] ∧
    clientResponseRcode (serveDNS cfg2 ["example", "org"] (0, none) false [0, 1]
      (fun _ => TrialOutcome.dialErr)) = some RcodeServerFailure :=
  serveDNS_exhausted cfg2 ["example", "org"] (0, none) false [0, 1]
    (fun _ => TrialOutcome.dialErr) (by decide) (by decide)

/-- C3: the zone-match predicate holds exactly when the query name falls
within the origin zone and either equals the zone itself or is matched by no
excluded subzone; and on no-match `ServeDNS` delegates to the next handler,
returning its code and error unchanged with no writes, connection events or
metrics of its own and the proxies untouched. -/
theorem match_zone_and_delegation (f : ForwardConf) (name : List String)
    (nextResult : Nat × Option String) (coinEven : Bool) (perm : List Nat)
    (oracle : Nat → TrialOutcome) :
    (matchState f name = true ↔
      (pluginNameMatches f.fromZone name = true ∧
        (name = f.fromZone ∨
          ∀ ig ∈ f.ignored, pluginNameMatches ig name = false))) ∧
    (matchState f name = false →
      serveDNS f name nextResult coinEven perm oracle =
        { rcode := nextResult.1, err := nextResult.2, clientWrites := [],
          events := [], metrics := [], proxies := f.proxies }) := by
  constructor
  · unfold matchState isAllowedDomain
    by_cases he : name = f.fromZone <;> simp [he, List.any_eq_false]
  · intro hm
    simp [serveDNS, hm]

/-- Witness for `match_zone_and_delegation`: query `example.com.` is outside
zone `org.`, so `ServeDNS` passes through the next handler's result. -/
theorem match_zone_and_delegation_witness :
    (matchState cfg3 ["example", "com"] = true ↔
      (pluginNameMatches cfg3.fromZone ["example", "com"] = true ∧
        (["example", "com"] = cfg3.fromZone ∨
          ∀ ig ∈ cfg3.ignored,
            pluginNameMatches ig ["example", "com"] = false))) ∧
    serveDNS cfg3 ["example", "com"] (3, some "next failed") true [0, 1, 2]
        (fun _ => TrialOutcome.dialErr) =
      { rcode := 3, err := some "next failed", clientWrites := [],
        events := [], metrics := [], proxies := cfg3.proxies } :=
  ⟨(match_zone_and_delegation cfg3 ["example", "com"] (3, some "next failed")
      true [0, 1, 2] (fun _ => TrialOutcome.dialErr)).1,
   (match_zone_and_delegation cfg3 ["example", "com"] (3, some "next failed")
      true [0, 1, 2] (fun _ => TrialOutcome.dialErr)).2 (by decide)⟩

/-- C7: a trial on an up proxy whose write or read fails closes (discards)
that connection — it is never yielded back to the pool — propagates no error
into the result, and the loop continues with the remaining upstreams, never
retrying the same proxy in this request. -/
theorem trial_io_failure (maxfails : Nat) (oracle : Nat → TrialOutcome)
    (i : Nat) (p : Proxy) (rest : List Proxy)
    (hup : p.Down maxfails = false)
    (herr : oracle i = .writeErr ∨ oracle i = .readErr) :
    serveLoop maxfails oracle i (p :: rest) =
      { serveLoop maxfails oracle (i + 1) rest with
        events := .closed p.host.addr ::
          (serveLoop maxfails oracle (i + 1) rest).events,
        proxies := p :: (serveLoop maxfails oracle (i + 1) rest).proxies } := by
  rcases herr with h | h <;> simp [serveLoop, hup, h]

/-- Witness for `trial_io_failure`: a write failure on the first of two up
proxies. -/
theorem trial_io_failure_witness :
    serveLoop 2 (fun _ => TrialOutcome.writeErr) 0 [upA, upB] =
      { serveLoop 2 (fun _ => TrialOutcome.writeErr) 1 [upB] with
        events := ConnEvent.closed upA.host.addr ::
          (serveLoop 2 (fun _ => TrialOutcome.writeErr) 1 [upB]).events,
        proxies := upA ::
          (serveLoop 2 (fun _ => TrialOutcome.writeErr) 1 [upB]).proxies } :=
  trial_io_failure 2 (fun _ => TrialOutcome.writeErr) 0 upA [upB]
    (by decide) (Or.inl rfl)

/-- C8: neither trial loop (`ServeDNS`'s or `Forward`'s) modifies any
upstream's state — in particular no request-path dial, write, read or connect
error changes a failure counter; only `check` does. -/
theorem request_path_fails_frame (maxfails : Nat) (oracle : Nat → TrialOutcome)
    (req : Msg) (oracle2 : Nat → Msg → ConnectResult) (ps : List Proxy) :
    ∀ i : Nat,
    (serveLoop maxfails oracle i ps).proxies = ps ∧
    (forwardLoop maxfails req oracle2 i ps).proxies = ps := by
  induction ps with
  | nil => intro i; exact ⟨rfl, rfl⟩
  | cons p rest ih =>
      intro i
      constructor
      · by_cases hd : p.Down maxfails
        · simp [serveLoop, hd, (ih (i + 1)).1]
        · cases ho : oracle i <;> simp [serveLoop, hd, ho, (ih (i + 1)).1]
      · by_cases hd : p.Down maxfails
        · simp [forwardLoop, hd, (ih (i + 1)).2]
        · cases ho : oracle2 i req <;>
            simp [forwardLoop, hd, ho, (ih (i + 1)).2]

/-- C9: `Lookup` builds a synthetic query carrying exactly the requested
question name and type, with the payload size and DNSSEC-OK flag copied from
the original request (whatever the defaults), and returns the result of
`Forward` on that query. -/
theorem lookup_spec (f : ForwardConf) (st : Msg) (name : List String)
    (typ : Nat) (coinEven : Bool) (perm : List Nat)
    (oracle : Nat → Msg → ConnectResult) :
    (lookupQuery st name typ).qname = name ∧
    (lookupQuery st name typ).qtype = typ ∧
    (lookupQuery st name typ).udpSize = st.udpSize ∧
    (lookupQuery st name typ).doFlag = st.doFlag ∧
    lookup f st name typ coinEven perm oracle =
      forward f (lookupQuery st name typ) coinEven perm oracle :=
  ⟨rfl, rfl, rfl, rfl, rfl⟩

/-- C10: a trial on an up proxy whose read succeeds ends the request: the
reply is written to the client exactly as received — whatever its rcode, a
server-failure code included — the connection is yielded back to the pool,
metrics are recorded for that upstream, the loop returns `(0, nil)`, and no
further upstream is tried. -/
theorem trial_read_success (maxfails : Nat) (oracle : Nat → TrialOutcome)
    (i : Nat) (p : Proxy) (rest : List Proxy) (ret : Msg)
    (hup : p.Down maxfails = false) (hr : oracle i = .reply ret) :
    serveLoop maxfails oracle i (p :: rest) =
      { rcode := 0, err := none, clientWrites := [ret],
        events := [.yielded p.host.addr],
        metrics := [(p.host.addr, ret.rcode)],
        proxies := p :: rest } := by
  simp [serveLoop, hup, hr]

/-- Witness for `trial_read_success`: the upstream replies with a
server-failure rcode (2), which is relayed to the client as-is, with a second
proxy left untried. -/
theorem trial_read_success_witness :
    serveLoop 2 (fun _ => TrialOutcome.reply servfailReply) 0 [upA, upB] =
      { rcode := 0, err := none, clientWrites := [servfailReply],
        events := [ConnEvent.yielded upA.host.addr],
        metrics := [(upA.host.addr, 2)],
        proxies := [upA, upB] } :=
  trial_read_success 2 (fun _ => TrialOutcome.reply servfailReply) 0 upA [upB]
    servfailReply (by decide) rfl

end Forward
